import Mathlib

/-!
Verification development for the PiggyCell auto check-in bot (`checkin.py`).

The bot is a sequential, configuration-driven HTTP client.  We embed its
account-processing workflow shallowly: external effects (the HTTP layer,
`json.loads`, the clock, `datetime.fromtimestamp` range checks) are supplied
as explicit oracle parameters in an `Env`, and every function of the source
becomes a pure Lean function over those oracles.  Machine-level concerns do
not arise: all arithmetic in the source is small-integer arithmetic on epoch
seconds and retry counters.
-/

namespace Checkin

/-! ### String helpers (Python `str` operations used by the source) -/

/-- `strPrefixOf n h`: the char list `n` is a prefix of `h`
(Python `h.startswith(n)`). -/
def strPrefixOf : List Char → List Char → Bool
  | [], _ => true
  | _ :: _, [] => false
  | c :: cs, d :: ds => c == d && strPrefixOf cs ds

/-- `strHasSub hay needle`: `needle` occurs contiguously in `hay`
(Python `needle in hay`). -/
def strHasSub : List Char → List Char → Bool
  | [], needle => needle.isEmpty
  | c :: rest, needle => strPrefixOf needle (c :: rest) || strHasSub rest needle

/-- ASCII model of Python `str.lower()` (the tokens involved are ASCII). -/
def pyLower (c : Char) : Char :=
  if 'A' ≤ c && c ≤ 'Z' then Char.ofNat (c.toNat + 32) else c

/-- Python `s.split('.')` on the character list of `s`. -/
def splitCharsOnDot : List Char → List (List Char)
  | [] => [[]]
  | c :: rest =>
    if c = '.' then [] :: splitCharsOnDot rest
    else
      match splitCharsOnDot rest with
      | p :: ps => (c :: p) :: ps
      | [] => [[c]]

/-- Python `s.count('.')`. -/
def countDots (l : List Char) : Nat := l.count '.'

/-- Bytes of an ASCII string (`str.encode` for the ASCII texts involved). -/
def strBytes (s : String) : List Nat := s.data.map Char.toNat

/-! ### Base64 (`base64.b64encode` / `base64.b64decode`)

`b64decode` is modelled with CPython's lenient (`validate=False`) behaviour
on the inputs the source produces: characters outside the standard alphabet
and `'='` are discarded, the post-discard length must be a multiple of 4,
data characters stop at the first `'='` (anything after must be padding),
a data-character count of 1 mod 4 is an error, and surplus padding —
as produced by the source's `payload += '=' * (4 - len(payload) % 4)` step
when the payload length is already a multiple of 4 — is accepted. -/

def b64Alphabet : List Char :=
  "ABCDEFGHIJKLMNOPQRSTUVWXYZabcdefghijklmnopqrstuvwxyz0123456789+/".data

def isB64Char (c : Char) : Bool := b64Alphabet.contains c

/-- Alphabet character of a sextet. -/
def b64idx (n : Nat) : Char := b64Alphabet.getD n 'A'

/-- Sextet value of an alphabet character. -/
def b64CharVal (c : Char) : Nat := b64Alphabet.indexOf c

/-- Standard padded base64 encoding (the character stream of
`base64.b64encode`). -/
def b64EncodeChars : List Nat → List Char
  | [] => []
  | [b1] => [b64idx (b1 / 4), b64idx (b1 % 4 * 16), '=', '=']
  | [b1, b2] => [b64idx (b1 / 4), b64idx (b1 % 4 * 16 + b2 / 16), b64idx (b2 % 16 * 4), '=']
  | b1 :: b2 :: b3 :: rest =>
    b64idx (b1 / 4) :: b64idx (b1 % 4 * 16 + b2 / 16) ::
      b64idx (b2 % 16 * 4 + b3 / 64) :: b64idx (b3 % 64) :: b64EncodeChars rest

/-- The sextet stream of a byte stream (data characters of the encoding,
before the alphabet map). -/
def bytesToSextets : List Nat → List Nat
  | [] => []
  | [b1] => [b1 / 4, b1 % 4 * 16]
  | [b1, b2] => [b1 / 4, b1 % 4 * 16 + b2 / 16, b2 % 16 * 4]
  | b1 :: b2 :: b3 :: rest =>
    b1 / 4 :: (b1 % 4 * 16 + b2 / 16) :: (b2 % 16 * 4 + b3 / 64) :: b3 % 64 ::
      bytesToSextets rest

/-- Number of `'='` pad characters the encoder appends. -/
def b64PadLen : List Nat → Nat
  | [] => 0
  | [_] => 2
  | [_, _] => 1
  | _ :: _ :: _ :: rest => b64PadLen rest

/-- Reassemble bytes from a sextet stream (final partial group of 2 or 3
sextets yields 1 or 2 bytes). -/
def sextetsToBytes : List Nat → List Nat
  | a :: b :: c :: d :: rest =>
    (a * 4 + b / 16) :: (b % 16 * 16 + c / 4) :: (c % 4 * 64 + d) :: sextetsToBytes rest
  | [a, b] => [a * 4 + b / 16]
  | [a, b, c] => [a * 4 + b / 16, b % 16 * 16 + c / 4]
  | _ => []

/-- A character `b64decode` keeps before decoding (`validate=False`
discard step). -/
def keepB64 (c : Char) : Bool := isB64Char c || c == '='

/-- CPython-lenient `base64.b64decode` on the source's (ASCII) inputs;
`none` models `binascii.Error`. -/
def pyB64Decode (chars : List Char) : Option (List Nat) :=
  let kept := chars.filter keepB64
  if kept.length % 4 ≠ 0 then none
  else
    let data := kept.takeWhile (fun c => c != '=')
    if (kept.dropWhile (fun c => c != '=')).all (fun c => c == '=') then
      if data.length % 4 = 1 then none
      else some (sextetsToBytes (data.map b64CharVal))
    else none

/-! ### Data model -/

/-- An account record as built by `load_accounts` (all fields present,
optional ones defaulted to `""`). -/
structure Account where
  name : String
  session_token : String
  cookies : String
  description : String

/-- A decoded JSON value (`json.loads` output). -/
inductive JVal where
  | jnull
  | jbool (b : Bool)
  | jnum (n : Int)
  | jstr (s : String)
  | jarr (xs : List JVal)
  | jobj (fields : List (String × JVal))

/-- Outcome of `json.loads` on the decoded payload: a value, a
`json.JSONDecodeError` (caught by the inner handler), or any other
exception (caught only by the outer handler). -/
inductive ParseOutcome where
  | ok (v : JVal)
  | decodeError
  | otherError

/-- Outcome of the validation GET in `test_token_with_api`: an HTTP status,
or any exception raised in its `try` block. -/
inductive ProbeOutcome where
  | status (code : Nat)
  | exc
  deriving DecidableEq

/-- External-world oracles for one validation: the JSON parser, the
`datetime.fromtimestamp` representability predicate, the current epoch
second (`datetime.now()`), and the validation probe's outcome. -/
structure Env where
  jsonParse : List Nat → ParseOutcome
  tsOk : Int → Bool
  now : Int
  probe : ProbeOutcome

/-- Observable outcome of `check_token_validity`: its boolean verdict,
whether `test_token_with_api` was invoked, and the remaining-hours figure
logged on the accept-with-expiry path. -/
structure TokenCheckResult where
  valid : Bool
  probeCalled : Bool
  loggedHours : Option ℚ
  deriving DecidableEq

/-! ### Token Validator (`check_token_validity`, `test_token_with_api`) -/

/-- The placeholder test of line 161: empty token, literal prefix `your`,
or substring `session_token` of the lowercased token. -/
def isPlaceholderToken (st : String) : Bool :=
  st.data.isEmpty || strPrefixOf "your".data st.data
    || strHasSub (st.data.map pyLower) "session_token".data

/-- Line 170: `payload += '=' * (4 - len(payload) % 4)` (appends four `'='`
when the length is already a multiple of 4). -/
def padPayloadChars (p : List Char) : List Char :=
  p ++ List.replicate (4 - p.length % 4) '='

/-- `test_token_with_api`: accept iff the probe returns HTTP 200; any
exception in its body (transport or otherwise) is caught and yields
`true` ("assuming valid"). -/
def test_token_with_api (env : Env) (_account : Account) : Bool :=
  match env.probe with
  | ProbeOutcome.status code => code == 200
  | ProbeOutcome.exc => true

/-- Key lookup in a parsed JSON object (`token_data['exp']`; `json.loads`
produces a dict, so keys are unique). -/
def jlookup : List (String × JVal) → String → Option JVal
  | [], _ => none
  | (k, v) :: rest, key => if k = key then some v else jlookup rest key

/-- Lines 178-188: the numeric expiry path.  `fromtimestamp` succeeds when
the timestamp is representable (`tsOk`), and the token is rejected when
the expiry is at most 30 minutes away (inclusive); otherwise the remaining
hours are logged and the token accepted.  A non-representable timestamp
(OverflowError / OSError) escapes to the outer `except Exception` handler,
which logs and returns `True`. -/
def expNumeric (env : Env) (expTimestamp : Int) : TokenCheckResult :=
  if env.tsOk expTimestamp then
    if expTimestamp ≤ env.now + 1800 then ⟨false, false, none⟩
    else ⟨true, false, some (((expTimestamp - env.now : ℤ) : ℚ) / 3600)⟩
  else ⟨true, false, none⟩

/-- Lines 176-191: the expiry examination of the parsed payload.  A
numeric `exp` takes the expiry comparison; so does a boolean `exp`,
because Python's `bool` is an `int` subclass (`fromtimestamp(True)` is
epoch second 1, `fromtimestamp(False)` epoch second 0).  A non-`jobj`
value, a missing `exp`, and an `exp` of any other type (TypeError in
`fromtimestamp`) all end in `return True` — the TypeError via the outer
`except Exception` handler, which logs and fails open. -/
def expVerdict (env : Env) (tokenData : JVal) : TokenCheckResult :=
  match tokenData with
  | JVal.jobj fields =>
    match jlookup fields "exp" with
    | some (JVal.jnum expTimestamp) => expNumeric env expTimestamp
    | some (JVal.jbool b) => expNumeric env (if b then 1 else 0)
    | some _ => ⟨true, false, none⟩
    | none => ⟨true, false, none⟩
  | _ => ⟨true, false, none⟩

/-- `check_token_validity`.  Placeholder tokens are rejected outright; a
three-segment token has its middle segment padded and base64-decoded and
its JSON `exp` examined; `binascii.Error` / `JSONDecodeError` fall back to
the live probe, as does a token without the three-segment shape; any other
exception is caught by the outer handler and fails open to `true`. -/
def check_token_validity (env : Env) (account : Account) : TokenCheckResult :=
  let st := account.session_token
  if isPlaceholderToken st then ⟨false, false, none⟩
  else if 2 ≤ countDots st.data then
    match splitCharsOnDot st.data with
    | _ :: payload :: _ =>
      match pyB64Decode (padPayloadChars payload) with
      | none => ⟨test_token_with_api env account, true, none⟩
      | some decoded =>
        match env.jsonParse decoded with
        | ParseOutcome.decodeError => ⟨test_token_with_api env account, true, none⟩
        | ParseOutcome.otherError => ⟨true, false, none⟩
        | ParseOutcome.ok tokenData => expVerdict env tokenData
    | _ => ⟨false, false, none⟩
  else ⟨test_token_with_api env account, true, none⟩

/-! ### Request Executor (`sign_in`) -/

/-- Stringified body of a 200 response: `jsonBody text` carries
`str(response.json())`; `rawBody raw` models a body on which
`response.json()` raises `json.JSONDecodeError` (handled by logging the
raw text and still returning `True`). -/
inductive RespBody where
  | jsonBody (text : String)
  | rawBody (raw : String)

/-- Outcome of one POST attempt: an HTTP response, a
`requests.exceptions.RequestException` (the only retried case), or any
other exception in the attempt body. -/
inductive AttemptOutcome where
  | httpResponse (status : Nat) (body : RespBody)
  | transportExc
  | otherExc

/-- Classification the executor logs for the account's run. -/
inductive SignInLog where
  | alreadyChecked
  | checkinSuccess
  | rawSuccess
  | failStatus (status : Nat)
  | failTransport
  | failOther
  | skippedInvalid
  | fellThrough
  deriving DecidableEq

/-- The log line (lines 308/310/315/320/327-332/335/238) attached to each
classification. -/
def logMessage : SignInLog → String
  | SignInLog.alreadyChecked => "already manually checked in today"
  | SignInLog.checkinSuccess => "check-in successful"
  | SignInLog.rawSuccess => "check-in successful"
  | SignInLog.failStatus status => "check-in failed, status: " ++ Nat.repr status
  | SignInLog.failTransport => "request failed after retries"
  | SignInLog.failOther => "Unknown error during check-in"
  | SignInLog.skippedInvalid => "token invalid or expiring soon, skipping"
  | SignInLog.fellThrough => ""

/-- The four already-checked-in phrase variants of lines 292-297. -/
def already_checked_phrases : List String :=
  ["Already checked in today", "already checked in today",
   "Already checked in", "already checked in"]

/-- The phrase scan of lines 301-305 over the stringified response. -/
def containsAnyPhrase (text : String) : Bool :=
  already_checked_phrases.any (fun p => strHasSub text.data p.data)

/-- Classification of a 200 response (lines 285-318): scan the stringified
JSON for the phrases, or log the raw text on a JSON parse failure; every
200 response returns `True`. -/
def classify200 : RespBody → SignInLog
  | RespBody.jsonBody text =>
    if containsAnyPhrase text then SignInLog.alreadyChecked else SignInLog.checkinSuccess
  | RespBody.rawBody _ => SignInLog.rawSuccess

/-- Observable outcome of the executor: final boolean, number of POST
attempts executed, total seconds slept in retry delays, and the logged
classification. -/
structure SignInResult where
  success : Bool
  attempts : Nat
  slept : Nat
  log : SignInLog
  deriving DecidableEq

/-- The `for attempt in range(retry_times)` loop of lines 244-338.
A 200 response returns `True`; any other status returns `False` at once;
a `RequestException` sleeps `retry_delay` and retries while
`attempt < retry_times - 1`, else returns `False`; any other exception
returns `False` at once; falling off the loop returns `False`
(line 338, reachable only when `retry_times == 0`). -/
def signInGo (retry_times retry_delay : Nat) (outcome : Nat → AttemptOutcome) :
    Nat → Nat → Nat → SignInResult
  | 0, attempt, slept => ⟨false, attempt, slept, SignInLog.fellThrough⟩
  | remaining + 1, attempt, slept =>
    match outcome attempt with
    | AttemptOutcome.httpResponse status body =>
      if status = 200 then ⟨true, attempt + 1, slept, classify200 body⟩
      else ⟨false, attempt + 1, slept, SignInLog.failStatus status⟩
    | AttemptOutcome.transportExc =>
      if attempt < retry_times - 1 then
        signInGo retry_times retry_delay outcome remaining (attempt + 1) (slept + retry_delay)
      else ⟨false, attempt + 1, slept, SignInLog.failTransport⟩
    | AttemptOutcome.otherExc => ⟨false, attempt + 1, slept, SignInLog.failOther⟩

/-- The run configuration fields `sign_in` reads, as loaded from JSON
(`None` = key absent). -/
structure Config where
  retry_times_opt : Option Nat
  retry_delay_opt : Option Nat

/-- `config.get('retry_times', 3)`. -/
def Config.retryTimes (c : Config) : Nat := c.retry_times_opt.getD 3

/-- `config.get('retry_delay', 5)`. -/
def Config.retryDelay (c : Config) : Nat := c.retry_delay_opt.getD 5

/-- `sign_in`: validate the token first (an invalid or expiring token is
logged and counted as failure without any POST attempt), then run the
bounded retry loop. -/
def sign_in (env : Env) (cfg : Config) (account : Account)
    (outcome : Nat → AttemptOutcome) : SignInResult :=
  if (check_token_validity env account).valid then
    signInGo cfg.retryTimes cfg.retryDelay outcome cfg.retryTimes 0 0
  else ⟨false, 0, 0, SignInLog.skippedInvalid⟩

/-! ### Run Orchestrator (`sign_in_all_accounts`) -/

/-- The aggregate of one orchestration pass. -/
structure RunOutcome where
  success_count : Nat
  total : Nat
  finalLog : String
  deriving DecidableEq

/-- The sequential account loop of lines 348-353, in configuration load
order; each element carries that account's oracles and per-attempt
outcomes. -/
def countSuccesses (cfg : Config) :
    List (Env × Account × (Nat → AttemptOutcome)) → Nat → Nat
  | [], acc => acc
  | (env, account, outcome) :: rest, acc =>
    countSuccesses cfg rest (acc + if (sign_in env cfg account outcome).success then 1 else 0)

/-- `sign_in_all_accounts`: warn and return with no final log when the
account list is empty; otherwise count successes sequentially and log
`"Check-in complete, success: <n>/<total>"`. -/
def sign_in_all_accounts (cfg : Config)
    (inputs : List (Env × Account × (Nat → AttemptOutcome))) : Option RunOutcome :=
  match inputs with
  | [] => none
  | _ :: _ =>
    let n := countSuccesses cfg inputs 0
    some ⟨n, inputs.length,
      "Check-in complete, success: " ++ Nat.repr n ++ "/" ++ Nat.repr inputs.length⟩

/-! ### Credential Store (`load_config`, `load_accounts`, `load_proxies`)

`__init__` (lines 31-36) runs `load_config`, `load_accounts`,
`load_proxies` and only then `setup_logging`; `self.logger` therefore does
not exist yet while the three loaders run. -/

/-- Whether `self.logger` exists when `load_config`'s error handlers run:
`setup_logging` is called after `load_config` in `__init__`, so it does
not. -/
def loggerDefinedAtConfigLoad : Bool := false

/-- State of the main config file on disk. -/
inductive FileOutcome where
  | ok
  | missing
  | malformedJson
  deriving DecidableEq

/-- How an attempt to load the main config file ends for the process. -/
structure ConfigLoadOutcome where
  terminated : Bool
  errorLogged : Bool
  deriving DecidableEq

/-- `load_config` (lines 38-48): on `FileNotFoundError` or
`JSONDecodeError` the handler runs `self.logger.error(...)` then
`sys.exit(1)`; when `self.logger` does not exist yet the handler itself
raises `AttributeError`, which propagates unhandled — the process still
terminates, but `sys.exit(1)` is never reached and nothing is logged. -/
def load_config (file : FileOutcome) : ConfigLoadOutcome :=
  match file with
  | FileOutcome.ok => ⟨false, false⟩
  | FileOutcome.missing =>
    if loggerDefinedAtConfigLoad then ⟨true, true⟩ else ⟨true, false⟩
  | FileOutcome.malformedJson =>
    if loggerDefinedAtConfigLoad then ⟨true, true⟩ else ⟨true, false⟩

/-- An account record as read from `checkin-acc.json` (`None` = key
absent; `account['name']` / `account['session_token']` raise `KeyError`
when absent). -/
structure RawAccount where
  name : Option String
  session_token : Option String
  cookies : Option String
  description : Option String
  enabled : Option Bool

/-- The accumulation loop of lines 58-65: skip disabled records; a missing
required key on an enabled record raises `KeyError` (`none`). -/
def buildAccounts : List RawAccount → Option (List Account)
  | [] => some []
  | raw :: rest =>
    if raw.enabled.getD true then
      match raw.name, raw.session_token with
      | some n, some t =>
        (buildAccounts rest).map
          (fun accs => ⟨n, t, raw.cookies.getD "", raw.description.getD ""⟩ :: accs)
      | _, _ => none
    else buildAccounts rest

/-- State of the accounts file on disk. -/
inductive AccountsFile where
  | ok (records : List RawAccount)
  | missing
  | malformedJson

/-- `load_accounts` (lines 50-74): returns the enabled accounts, or
degrades to an empty list with a printed warning on a missing file, a
JSON format error, or a `KeyError`; the second component records whether
the warning path ran (and execution continued either way). -/
def load_accounts : AccountsFile → List Account × Bool
  | AccountsFile.ok records =>
    match buildAccounts records with
    | some accs => (accs, false)
    | none => ([], true)
  | AccountsFile.missing => ([], true)
  | AccountsFile.malformedJson => ([], true)

/-- Python `str.strip()` (ASCII whitespace). -/
def pyStrip (l : List Char) : List Char :=
  ((l.dropWhile Char.isWhitespace).reverse.dropWhile Char.isWhitespace).reverse

/-- `load_proxies` (lines 76-88): strip each line, keep non-empty lines not
starting with `#`; a missing file degrades to an empty list with a printed
warning (second component). -/
def load_proxies : Option (List String) → List String × Bool
  | none => ([], true)
  | some lines =>
    ((lines.map (fun l => String.mk (pyStrip l.data))).filter
      (fun l => !l.data.isEmpty && !strPrefixOf "#".data l.data), false)

/-! ### Read-only state (invariant of §3)

The loaded data lives in `self.accounts` / `self.proxies` /
`self.config['headers']`.  The operations are re-expressed as explicit
state transformers so that mutation, were the source to perform any,
would show up as a changed returned state; the only dict write in the
source (`headers['user-agent'] = ...`, `headers['cookie'] = ...`, lines
246-254) is applied to `self.config['headers'].copy()`, modelled by
`composeHeaders` building a fresh association list. -/

/-- Dict write `d[k] = v` on an association list (a fresh list: the
argument is never modified). -/
def dictSet (d : List (String × String)) (k v : String) : List (String × String) :=
  if d.any (fun kv => kv.1 = k) then
    d.map (fun kv => if kv.1 = k then (k, v) else kv)
  else d ++ [(k, v)]

/-- The cookie header of lines 250-252. -/
def buildCookie (account : Account) : String :=
  let base := "__Secure-authjs.session-token=" ++ account.session_token
  if account.cookies ≠ "" then base ++ "; " ++ account.cookies else base

/-- Lines 246-254: `config['headers'].copy()` with `user-agent` and
`cookie` overridden — a new list, the base left untouched. -/
def composeHeaders (base : List (String × String)) (ua : String) (account : Account) :
    List (String × String) :=
  dictSet (dictSet base "user-agent" ua) "cookie" (buildCookie account)

/-- The data loaded at startup. -/
structure BotState where
  accounts : List Account
  proxies : List String
  headersBase : List (String × String)

/-- `check_token_validity` as a state transformer: it only reads the
loaded data. -/
def check_token_validity_st (env : Env) (s : BotState) (account : Account) :
    TokenCheckResult × BotState :=
  (check_token_validity env account, s)

/-- `test_token_with_api` as a state transformer. -/
def test_token_with_api_st (env : Env) (s : BotState) (account : Account) :
    Bool × BotState :=
  (test_token_with_api env account, s)

/-- `sign_in` as a state transformer: request headers are composed from a
copy of the stored base headers; the stored data itself is only read. -/
def sign_in_st (env : Env) (cfg : Config) (ua : String) (s : BotState)
    (account : Account) (outcome : Nat → AttemptOutcome) : SignInResult × BotState :=
  let _requestHeaders := composeHeaders s.headersBase ua account
  (sign_in env cfg account outcome, s)

/-- `sign_in_all_accounts` as a state transformer over a whole
orchestration pass. -/
def sign_in_all_accounts_st (cfg : Config) (s : BotState)
    (inputs : List (Env × Account × (Nat → AttemptOutcome))) :
    Option RunOutcome × BotState :=
  (sign_in_all_accounts cfg inputs, s)

/-! ### Concrete fixtures (used by witnesses and counterexamples) -/

/-- Environment with a JSON oracle recognising exactly one byte string,
every timestamp representable, fixed clock, and the given probe outcome. -/
def demoEnv (bs : List Nat) (v : JVal) (now : Int) (probe : ProbeOutcome) : Env :=
  ⟨fun b => if b = bs then ParseOutcome.ok v else ParseOutcome.decodeError,
   fun _ => true, now, probe⟩

/-- A config file without `retry_times` / `retry_delay` keys. -/
def cfgDefaults : Config := ⟨none, none⟩

/-- An environment whose validation probe answers HTTP 200. -/
def envProbeOk : Env := demoEnv [] JVal.jnull 1760227200 (ProbeOutcome.status 200)

/-- A dotless, non-placeholder token: validated through the live probe. -/
def accPlain : Account := ⟨"plain", "abc123credential", "", ""⟩

/-- A second dotless, non-placeholder token. -/
def accPlain2 : Account := ⟨"plain2", "xyz789credential", "", ""⟩

/-- An un-configured template token. -/
def accPlaceholder : Account := ⟨"template", "your_session_token_here", "", ""⟩

/-- JSON bytes of a future-expiry object (10 hours past the fixed clock). -/
def jsonBytesFresh : List Nat := strBytes "\x7b\"exp\": 1760263200\x7d"

/-- Fabricated JWT-shaped token around `jsonBytesFresh`. -/
def tokenFresh : String :=
  String.mk ('h' :: '.' :: (b64EncodeChars jsonBytesFresh ++ '.' :: ['s']))

def accFresh : Account := ⟨"fresh", tokenFresh, "", ""⟩

def envFresh : Env :=
  demoEnv jsonBytesFresh (JVal.jobj [("exp", JVal.jnum 1760263200)]) 1760227200 ProbeOutcome.exc

/-- JSON bytes of a far-future expiry object. -/
def jsonBytesC2 : List Nat := strBytes "\x7b\"exp\": 4102444800\x7d"

/-- Fabricated token whose header segment is the placeholder prefix
`your` but whose middle segment carries a far-future expiry. -/
def tokenC2x : String :=
  String.mk ("your".data ++ '.' :: (b64EncodeChars jsonBytesC2 ++ '.' :: ['s']))

def accC2x : Account := ⟨"c2", tokenC2x, "", ""⟩

def envC2x : Env :=
  demoEnv jsonBytesC2 (JVal.jobj [("exp", JVal.jnum 4102444800)]) 1760227200 ProbeOutcome.exc

def jsonBytesR8 : List Nat := strBytes "\x7b\"exp\": 1760266800\x7d"

def tokenR8 : String :=
  String.mk ("hdr8".data ++ '.' :: (b64EncodeChars jsonBytesR8 ++ '.' :: "sg8".data))

def accR8 : Account := ⟨"r8", tokenR8, "", ""⟩

def envR8 : Env :=
  demoEnv jsonBytesR8 (JVal.jobj [("exp", JVal.jnum 1760266800)]) 1760227200 ProbeOutcome.exc

def jsonBytesR8x : List Nat := strBytes "\x7b\"exp\": 1760270400\x7d"

/-- Fabricated round-trip token with a placeholder-shaped header. -/
def tokenR8x : String :=
  String.mk ("your8".data ++ '.' :: (b64EncodeChars jsonBytesR8x ++ '.' :: "sx8".data))

def accR8x : Account := ⟨"r8x", tokenR8x, "", ""⟩

def envR8x : Env :=
  demoEnv jsonBytesR8x (JVal.jobj [("exp", JVal.jnum 1760270400)]) 1760227200 ProbeOutcome.exc

/-- JSON bytes of an object whose `exp` is a string. -/
def jsonBytesBadExp : List Nat := strBytes "\x7b\"exp\": \"later\"\x7d"

def tokenBadExp : String :=
  String.mk ("hx".data ++ '.' :: (b64EncodeChars jsonBytesBadExp ++ '.' :: "sx".data))

def accBadExp : Account := ⟨"badexp", tokenBadExp, "", ""⟩

def envBadExp : Env :=
  demoEnv jsonBytesBadExp (JVal.jobj [("exp", JVal.jstr "later")]) 1760227200 ProbeOutcome.exc

/-- JSON bytes of an object whose `exp` is `null`. -/
def jsonBytesNullExp : List Nat := strBytes "\x7b\"exp\": null\x7d"

/-- Token with a non-numeric `exp` and a placeholder-shaped header. -/
def tokenNullExpx : String :=
  String.mk ("your10".data ++ '.' :: (b64EncodeChars jsonBytesNullExp ++ '.' :: "s10".data))

def accNullExpx : Account := ⟨"nullexp", tokenNullExpx, "", ""⟩

def envNullExpx : Env :=
  demoEnv jsonBytesNullExp (JVal.jobj [("exp", JVal.jnull)]) 1760227200 ProbeOutcome.exc

/-- JSON bytes of an object whose `exp` is the JSON boolean `true`. -/
def jsonBytesBoolExp : List Nat := strBytes "\x7b\"exp\": true\x7d"

def tokenBoolExp : String :=
  String.mk ("hb".data ++ '.' :: (b64EncodeChars jsonBytesBoolExp ++ '.' :: "sb".data))

def accBoolExp : Account := ⟨"boolexp", tokenBoolExp, "", ""⟩

def envBoolExp : Env :=
  demoEnv jsonBytesBoolExp (JVal.jobj [("exp", JVal.jbool true)]) 1760227200 ProbeOutcome.exc

/-- Attempt oracle: every attempt gets an HTTP 500 response. -/
def oStatus500 : Nat → AttemptOutcome :=
  fun _ => AttemptOutcome.httpResponse 500 (RespBody.rawBody "server error")

/-- Attempt oracle: every attempt raises a transport exception. -/
def oTransportAll : Nat → AttemptOutcome := fun _ => AttemptOutcome.transportExc

/-- Attempt oracle: every attempt gets an HTTP 200 response with the given
body. -/
def oResp200 (b : RespBody) : Nat → AttemptOutcome :=
  fun _ => AttemptOutcome.httpResponse 200 b

/-! ### Base64 lemmas: the encoder round-trips through the source's
padding step -/

theorem b64idx_mem_keep (n : Nat) : keepB64 (b64idx n) = true := by
  by_cases h : n < 64
  · revert h; revert n; decide
  · have hlen : b64Alphabet.length = 64 := by decide
    have : b64idx n = 'A' := by
      unfold b64idx
      rw [List.getD_eq_getElem?_getD, List.getElem?_eq_none (by omega), Option.getD_none]
    rw [this]; decide

theorem b64idx_ne_eq (n : Nat) : (b64idx n != '=') = true := by
  by_cases h : n < 64
  · revert h; revert n; decide
  · have hlen : b64Alphabet.length = 64 := by decide
    have : b64idx n = 'A' := by
      unfold b64idx
      rw [List.getD_eq_getElem?_getD, List.getElem?_eq_none (by omega), Option.getD_none]
    rw [this]; decide

theorem b64idx_ne_dot (n : Nat) : b64idx n ≠ '.' := by
  by_cases h : n < 64
  · revert h; revert n; decide
  · have hlen : b64Alphabet.length = 64 := by decide
    have : b64idx n = 'A' := by
      unfold b64idx
      rw [List.getD_eq_getElem?_getD, List.getElem?_eq_none (by omega), Option.getD_none]
    rw [this]; decide

theorem b64CharVal_b64idx {n : Nat} (h : n < 64) : b64CharVal (b64idx n) = n := by
  revert h; revert n; decide

/-- Every sextet of a byte stream is a valid sextet. -/
theorem bytesToSextets_lt (bs : List Nat) (h : ∀ b ∈ bs, b < 256) :
    ∀ s ∈ bytesToSextets bs, s < 64 := by
  induction bs using bytesToSextets.induct with
  | case1 => simp [bytesToSextets]
  | case2 b1 =>
    have hb := h b1 (by simp)
    intro s hs
    simp only [bytesToSextets, List.mem_cons, List.not_mem_nil, or_false] at hs
    rcases hs with rfl | rfl <;> omega
  | case3 b1 b2 =>
    have h1 := h b1 (by simp)
    have h2 := h b2 (by simp)
    intro s hs
    simp only [bytesToSextets, List.mem_cons, List.not_mem_nil, or_false] at hs
    rcases hs with rfl | rfl | rfl <;> omega
  | case4 b1 b2 b3 rest ih =>
    have h1 := h b1 (by simp)
    have h2 := h b2 (by simp)
    have h3 := h b3 (by simp)
    have hrest : ∀ b ∈ rest, b < 256 := fun b hb => h b (by simp [hb])
    intro s hs
    simp only [bytesToSextets, List.mem_cons] at hs
    rcases hs with rfl | rfl | rfl | rfl | hmem
    · omega
    · omega
    · omega
    · omega
    · exact ih hrest s hmem

/-- Decoding the sextet stream recovers the bytes. -/
theorem sextetsToBytes_bytesToSextets (bs : List Nat) (h : ∀ b ∈ bs, b < 256) :
    sextetsToBytes (bytesToSextets bs) = bs := by
  induction bs using bytesToSextets.induct with
  | case1 => rfl
  | case2 b1 =>
    have := h b1 (by simp)
    simp only [bytesToSextets, sextetsToBytes]
    congr 1
    omega
  | case3 b1 b2 =>
    have h1 := h b1 (by simp)
    have h2 := h b2 (by simp)
    simp only [bytesToSextets, sextetsToBytes]
    congr 1
    · omega
    · congr 1; omega
  | case4 b1 b2 b3 rest ih =>
    have h1 := h b1 (by simp)
    have h2 := h b2 (by simp)
    have h3 := h b3 (by simp)
    have hrest : ∀ b ∈ rest, b < 256 := fun b hb => h b (by simp [hb])
    simp only [bytesToSextets, sextetsToBytes]
    rw [ih hrest]
    congr 1
    · omega
    · congr 1
      · omega
      · congr 1; omega

/-- The number of data characters is never 1 mod 4. -/
theorem bytesToSextets_length_mod (bs : List Nat) :
    (bytesToSextets bs).length % 4 ≠ 1 := by
  induction bs using bytesToSextets.induct with
  | case1 => simp [bytesToSextets]
  | case2 b1 => simp [bytesToSextets]
  | case3 b1 b2 => simp [bytesToSextets]
  | case4 b1 b2 b3 rest ih =>
    simp only [bytesToSextets, List.length_cons]
    omega

/-- The encoder output is the alphabet image of the sextets followed by
its pad characters. -/
theorem b64EncodeChars_eq_split (bs : List Nat) :
    b64EncodeChars bs = (bytesToSextets bs).map b64idx ++ List.replicate (b64PadLen bs) '=' := by
  induction bs using bytesToSextets.induct with
  | case1 => rfl
  | case2 b1 => rfl
  | case3 b1 b2 => rfl
  | case4 b1 b2 b3 rest ih =>
    simp only [b64EncodeChars, bytesToSextets, b64PadLen, List.map_cons, List.cons_append]
    rw [ih]

/-- The encoder output length is a multiple of 4. -/
theorem b64EncodeChars_length_mod (bs : List Nat) :
    (b64EncodeChars bs).length % 4 = 0 := by
  induction bs using bytesToSextets.induct with
  | case1 => simp [b64EncodeChars]
  | case2 b1 => simp [b64EncodeChars]
  | case3 b1 b2 => simp [b64EncodeChars]
  | case4 b1 b2 b3 rest ih =>
    simp only [b64EncodeChars, List.length_cons]
    omega

/-- The source's padding step on an encoder output appends exactly four
`'='` characters (the length is already a multiple of 4). -/
theorem padPayloadChars_encode (bs : List Nat) :
    padPayloadChars (b64EncodeChars bs) = b64EncodeChars bs ++ List.replicate 4 '=' := by
  unfold padPayloadChars
  rw [b64EncodeChars_length_mod]

theorem takeWhile_eq_replicate_nil (n : Nat) :
    (List.replicate n '=').takeWhile (fun c => c != '=') = [] := by
  cases n <;> simp [List.replicate_succ]

theorem dropWhile_eq_replicate_self (n : Nat) :
    (List.replicate n '=').dropWhile (fun c => c != '=') = List.replicate n '=' := by
  cases n <;> simp [List.replicate_succ]

/-- Round-trip: the lenient decoder recovers the bytes from the
over-padded encoder output. -/
theorem pyB64Decode_padded_encode (bs : List Nat) (h : ∀ b ∈ bs, b < 256) :
    pyB64Decode (b64EncodeChars bs ++ List.replicate 4 '=') = some bs := by
  have hlenmod := b64EncodeChars_length_mod bs
  have hlt := bytesToSextets_lt bs h
  have hDkeep : ∀ c ∈ (bytesToSextets bs).map b64idx, keepB64 c = true := by
    intro c hc
    obtain ⟨n, _, rfl⟩ := List.mem_map.mp hc
    exact b64idx_mem_keep n
  have hDne : ∀ c ∈ (bytesToSextets bs).map b64idx, (c != '=') = true := by
    intro c hc
    obtain ⟨n, _, rfl⟩ := List.mem_map.mp hc
    exact b64idx_ne_eq n
  have hfull : b64EncodeChars bs ++ List.replicate 4 '='
      = (bytesToSextets bs).map b64idx ++ List.replicate (b64PadLen bs + 4) '=' := by
    rw [b64EncodeChars_eq_split, List.append_assoc, List.replicate_add]
  have hlen4 : ((bytesToSextets bs).map b64idx
      ++ List.replicate (b64PadLen bs + 4) '=').length % 4 = 0 := by
    have h0 : (b64EncodeChars bs ++ List.replicate 4 '=').length % 4 = 0 := by
      simp only [List.length_append, List.length_replicate]
      omega
    rw [hfull] at h0
    exact h0
  rw [hfull]
  unfold pyB64Decode
  have hkeepall : ((bytesToSextets bs).map b64idx
      ++ List.replicate (b64PadLen bs + 4) '=').filter keepB64
      = (bytesToSextets bs).map b64idx ++ List.replicate (b64PadLen bs + 4) '=' := by
    apply List.filter_eq_self.mpr
    intro c hc
    rcases List.mem_append.mp hc with hc | hc
    · exact hDkeep c hc
    · rw [List.eq_of_mem_replicate hc]; rfl
  rw [hkeepall]
  rw [if_neg (by omega)]
  rw [List.takeWhile_append_of_pos hDne, takeWhile_eq_replicate_nil, List.append_nil]
  rw [List.dropWhile_append_of_pos hDne, dropWhile_eq_replicate_self]
  have hall : (List.replicate (b64PadLen bs + 4) '=').all (fun c => c == '=') = true := by
    rw [List.all_eq_true]
    intro c hc
    rw [List.eq_of_mem_replicate hc]; rfl
  rw [if_pos hall]
  have hdlen : ((bytesToSextets bs).map b64idx).length % 4 ≠ 1 := by
    rw [List.length_map]
    exact bytesToSextets_length_mod bs
  rw [if_neg hdlen]
  have hmap : ((bytesToSextets bs).map b64idx).map b64CharVal = bytesToSextets bs := by
    rw [List.map_map]
    have hc : ∀ s ∈ bytesToSextets bs, (b64CharVal ∘ b64idx) s = id s := by
      intro s hs
      simp only [Function.comp_apply, id_eq]
      exact b64CharVal_b64idx (hlt s hs)
    rw [List.map_congr_left hc, List.map_id]
  rw [hmap, sextetsToBytes_bytesToSextets bs h]

/-! ### Splitting lemmas for fabricated three-segment tokens -/

theorem splitCharsOnDot_ne_nil (l : List Char) : splitCharsOnDot l ≠ [] := by
  induction l with
  | nil => simp [splitCharsOnDot]
  | cons c rest ih =>
    simp only [splitCharsOnDot]
    split
    · simp
    · split
      · simp
      · simp

/-- Splitting a list whose head block is dot-free peels off that block. -/
theorem splitCharsOnDot_append (hd rest : List Char) (h : '.' ∉ hd) :
    splitCharsOnDot (hd ++ '.' :: rest) = hd :: splitCharsOnDot rest := by
  induction hd with
  | nil => simp [splitCharsOnDot]
  | cons c hd' ih =>
    have hc : c ≠ '.' := fun hcc => h (by simp [hcc])
    have h' : '.' ∉ hd' := fun hmem => h (by simp [hmem])
    simp only [List.cons_append, splitCharsOnDot, if_neg hc, List.append_eq]
    rw [ih h']

/-- A fabricated `header.middle.signature` token has at least two dots. -/
theorem countDots_fabricated (hd mid tl : List Char) :
    2 ≤ countDots (hd ++ '.' :: (mid ++ '.' :: tl)) := by
  simp [countDots, List.count_append, List.count_cons]
  omega

/-- Encoder output contains no dot, so it survives `split('.')` intact as
the middle segment. -/
theorem b64EncodeChars_no_dot (bs : List Nat) : '.' ∉ b64EncodeChars bs := by
  rw [b64EncodeChars_eq_split]
  intro hmem
  rcases List.mem_append.mp hmem with hc | hc
  · obtain ⟨n, _, hn⟩ := List.mem_map.mp hc
    exact b64idx_ne_dot n hn
  · have := List.eq_of_mem_replicate hc
    simp at this

/-! ### Retry-loop lemmas -/

theorem signInGo_succ_response (rt rd remaining attempt slept status : Nat)
    (b : RespBody) (o : Nat → AttemptOutcome)
    (h : o attempt = AttemptOutcome.httpResponse status b) :
    signInGo rt rd o (remaining + 1) attempt slept
      = if status = 200 then ⟨true, attempt + 1, slept, classify200 b⟩
        else ⟨false, attempt + 1, slept, SignInLog.failStatus status⟩ := by
  simp only [signInGo, h]

theorem signInGo_succ_transport (rt rd remaining attempt slept : Nat)
    (o : Nat → AttemptOutcome) (h : o attempt = AttemptOutcome.transportExc) :
    signInGo rt rd o (remaining + 1) attempt slept
      = if attempt < rt - 1 then signInGo rt rd o remaining (attempt + 1) (slept + rd)
        else ⟨false, attempt + 1, slept, SignInLog.failTransport⟩ := by
  simp only [signInGo, h]

theorem signInGo_succ_other (rt rd remaining attempt slept : Nat)
    (o : Nat → AttemptOutcome) (h : o attempt = AttemptOutcome.otherExc) :
    signInGo rt rd o (remaining + 1) attempt slept
      = ⟨false, attempt + 1, slept, SignInLog.failOther⟩ := by
  simp only [signInGo, h]

/-- A run whose first `k` attempts raise transport exceptions and whose
attempt `k` receives an HTTP response with a non-200 status fails right
after that attempt, having slept `retry_delay` seconds `k` times. -/
theorem signInGo_transport_then_status (rt rd k s : Nat) (b : RespBody)
    (o : Nat → AttemptOutcome) (hk : k < rt)
    (hpre : ∀ i, i < k → o i = AttemptOutcome.transportExc)
    (hresp : o k = AttemptOutcome.httpResponse s b) (hs : s ≠ 200) :
    ∀ remaining attempt slept, attempt + remaining = rt → attempt ≤ k →
    signInGo rt rd o remaining attempt slept
      = ⟨false, k + 1, slept + (k - attempt) * rd, SignInLog.failStatus s⟩ := by
  intro remaining
  induction remaining with
  | zero => intro attempt slept hsum hle; omega
  | succ n ih =>
    intro attempt slept hsum hle
    rcases Nat.lt_or_ge attempt k with hlt | hge
    · have hcond : attempt < rt - 1 := by omega
      rw [signInGo_succ_transport rt rd n attempt slept o (hpre attempt hlt), if_pos hcond,
        ih (attempt + 1) (slept + rd) (by omega) (by omega)]
      have hka : k - attempt = (k - (attempt + 1)) + 1 := by omega
      simp only [SignInResult.mk.injEq, true_and, and_true]
      rw [hka, Nat.succ_mul]
      ring
    · have hak : attempt = k := by omega
      subst hak
      rw [signInGo_succ_response rt rd n attempt slept s b o hresp, if_neg hs]
      simp [Nat.sub_self]

/-- A run all of whose attempts raise transport exceptions makes exactly
`retry_times` attempts with a `retry_delay` sleep between consecutive
ones, then fails. -/
theorem signInGo_all_transport (rt rd : Nat) (o : Nat → AttemptOutcome)
    (h : ∀ i, o i = AttemptOutcome.transportExc) :
    ∀ remaining attempt slept, 1 ≤ remaining → attempt + remaining = rt →
    signInGo rt rd o remaining attempt slept
      = ⟨false, rt, slept + (remaining - 1) * rd, SignInLog.failTransport⟩ := by
  intro remaining
  induction remaining with
  | zero => intro attempt slept h1 _; omega
  | succ n ih =>
    intro attempt slept _ hsum
    cases n with
    | zero =>
      have hcond : ¬ attempt < rt - 1 := by omega
      rw [signInGo_succ_transport rt rd 0 attempt slept o (h attempt), if_neg hcond]
      simp only [SignInResult.mk.injEq, true_and, and_true]
      constructor
      · omega
      · omega
    | succ m =>
      have hcond : attempt < rt - 1 := by omega
      rw [signInGo_succ_transport rt rd (m + 1) attempt slept o (h attempt), if_pos hcond,
        ih (attempt + 1) (slept + rd) (by omega) (by omega)]
      simp only [SignInResult.mk.injEq, true_and, and_true]
      have h1 : m + 1 - 1 = m := by omega
      have h2 : m + 1 + 1 - 1 = m + 1 := by omega
      rw [h1, h2, Nat.succ_mul]
      ring

/-! ### Token Validator helper lemmas -/

/-- A placeholder token is rejected before anything else runs. -/
theorem check_token_placeholder (env : Env) (acc : Account)
    (h : isPlaceholderToken acc.session_token = true) :
    check_token_validity env acc = ⟨false, false, none⟩ := by
  unfold check_token_validity
  simp [h]

/-- A placeholder token makes `sign_in` return failure with no POST
attempt and no retry sleep. -/
theorem sign_in_skip_placeholder (env : Env) (cfg : Config) (acc : Account)
    (o : Nat → AttemptOutcome) (h : isPlaceholderToken acc.session_token = true) :
    sign_in env cfg acc o = ⟨false, 0, 0, SignInLog.skippedInvalid⟩ := by
  unfold sign_in
  rw [check_token_placeholder env acc h]
  simp

/-- Evaluation of `check_token_validity` along the decode-and-examine path
for a token with a numeric, representable `exp`. -/
theorem check_token_expiry_eval (env : Env) (acc : Account)
    (s0 payload : List Char) (rest : List (List Char)) (bs : List Nat)
    (fields : List (String × JVal)) (e : Int)
    (hph : isPlaceholderToken acc.session_token = false)
    (hdots : 2 ≤ countDots acc.session_token.data)
    (hsplit : splitCharsOnDot acc.session_token.data = s0 :: payload :: rest)
    (hdec : pyB64Decode (padPayloadChars payload) = some bs)
    (hjson : env.jsonParse bs = ParseOutcome.ok (JVal.jobj fields))
    (hexp : jlookup fields "exp" = some (JVal.jnum e))
    (hts : env.tsOk e = true) :
    (e ≤ env.now + 1800 → check_token_validity env acc = ⟨false, false, none⟩) ∧
    (env.now + 1800 < e →
      check_token_validity env acc
        = ⟨true, false, some (((e - env.now : ℤ) : ℚ) / 3600)⟩) := by
  unfold check_token_validity
  simp only [hph, Bool.false_eq_true, if_false, if_pos hdots, hsplit, hdec, hjson]
  unfold expVerdict
  simp only [hexp]
  unfold expNumeric
  simp only [hts, if_true]
  constructor
  · intro hle
    rw [if_pos hle]
  · intro hlt
    rw [if_neg (by omega)]

/-- Python's bool-as-int semantics at work: a fabricated token whose
payload is JSON with `exp` equal to the boolean `true` takes the numeric
expiry path as epoch second 1 and is rejected as already expired — no
exception is raised and no fail-open occurs. -/
theorem check_token_bool_exp_expired :
    check_token_validity envBoolExp accBoolExp = ⟨false, false, none⟩ := by
  decide

/-! ### Claims -/

/-- C1: after token validation passes, a run of `sign_in` that receives an
HTTP response with status ≠ 200 at any attempt returns failure immediately
after that single attempt (retries are triggered only by transport
exceptions, each preceded by a `retry_delay`-second sleep), and a run all
of whose attempts raise transport exceptions makes exactly `retry_times`
attempts (default 3; `retry_delay` defaults to 5) and then returns
failure. -/
theorem claim1_retry_policy (env : Env) (cfg : Config) (acc : Account)
    (o oT : Nat → AttemptOutcome)
    (hvalid : (check_token_validity env acc).valid = true) :
    (∀ k s b, k < cfg.retryTimes →
      (∀ i, i < k → o i = AttemptOutcome.transportExc) →
      o k = AttemptOutcome.httpResponse s b → s ≠ 200 →
      sign_in env cfg acc o
        = ⟨false, k + 1, k * cfg.retryDelay, SignInLog.failStatus s⟩) ∧
    ((∀ i, oT i = AttemptOutcome.transportExc) → 1 ≤ cfg.retryTimes →
      sign_in env cfg acc oT
        = ⟨false, cfg.retryTimes, (cfg.retryTimes - 1) * cfg.retryDelay,
           SignInLog.failTransport⟩) ∧
    Config.retryTimes ⟨none, none⟩ = 3 ∧ Config.retryDelay ⟨none, none⟩ = 5 := by
  refine ⟨?_, ?_, rfl, rfl⟩
  · intro k s b hk hpre hresp hs
    unfold sign_in
    rw [hvalid]
    simp only [if_true]
    have h := signInGo_transport_then_status cfg.retryTimes cfg.retryDelay k s b o
      hk hpre hresp hs cfg.retryTimes 0 0 (by omega) (by omega)
    simpa using h
  · intro ht h1
    unfold sign_in
    rw [hvalid]
    simp only [if_true]
    have h := signInGo_all_transport cfg.retryTimes cfg.retryDelay oT ht
      cfg.retryTimes 0 0 h1 (by omega)
    simpa using h

/-- C1 witness: with the default config, a first-attempt 500 fails after
one attempt with no sleep, and an all-transport run fails after 3 attempts
with 10 seconds slept. -/
theorem claim1_retry_policy_witness :
    sign_in envProbeOk cfgDefaults accPlain oStatus500
      = ⟨false, 1, 0, SignInLog.failStatus 500⟩ ∧
    sign_in envProbeOk cfgDefaults accPlain oTransportAll
      = ⟨false, 3, 10, SignInLog.failTransport⟩ := by
  have h := claim1_retry_policy envProbeOk cfgDefaults accPlain oStatus500 oTransportAll
    (by decide)
  exact ⟨h.1 0 500 (RespBody.rawBody "server error") (by decide)
      (fun i hi => absurd hi (Nat.not_lt_zero i)) rfl (by decide),
    h.2.1 (fun i => rfl) (by decide)⟩

/-- C2 counterexample: a token that splits into three segments whose
middle segment decodes (as padded standard base64) to JSON carrying an
`exp` more than 30 minutes in the future, yet `check_token_validity`
returns `false`, because the token starts with the placeholder prefix
`your`, which is checked first. -/
theorem claim2_counterexample :
    2 ≤ countDots accC2x.session_token.data ∧
    splitCharsOnDot accC2x.session_token.data
      = ["your".data, b64EncodeChars jsonBytesC2, "s".data] ∧
    pyB64Decode (padPayloadChars (b64EncodeChars jsonBytesC2)) = some jsonBytesC2 ∧
    envC2x.jsonParse jsonBytesC2
      = ParseOutcome.ok (JVal.jobj [("exp", JVal.jnum 4102444800)]) ∧
    envC2x.now + 1800 < 4102444800 ∧
    (check_token_validity envC2x accC2x).valid = false :=
  ⟨by decide, by decide, by decide, rfl, by decide, by decide⟩

/-- C2 (amended: the token must additionally not be placeholder-shaped,
since the placeholder test of line 161 runs first): for every account
whose non-placeholder `session_token` splits into at least three
`'.'`-separated segments and whose middle segment decodes as padded
standard base64 to JSON with a numeric `exp`, `check_token_validity`
returns `false` when `exp ≤ now + 30 min` (inclusive) and returns `true`
when `exp > now + 30 min`, logging the remaining validity
`(exp - now) / 3600` in hours. -/
theorem claim2_token_expiry (env : Env) (acc : Account)
    (s0 payload : List Char) (rest : List (List Char)) (bs : List Nat)
    (fields : List (String × JVal)) (e : Int)
    (hph : isPlaceholderToken acc.session_token = false)
    (hdots : 2 ≤ countDots acc.session_token.data)
    (hsplit : splitCharsOnDot acc.session_token.data = s0 :: payload :: rest)
    (hdec : pyB64Decode (padPayloadChars payload) = some bs)
    (hjson : env.jsonParse bs = ParseOutcome.ok (JVal.jobj fields))
    (hexp : jlookup fields "exp" = some (JVal.jnum e))
    (hts : env.tsOk e = true) :
    (e ≤ env.now + 1800 → check_token_validity env acc = ⟨false, false, none⟩) ∧
    (env.now + 1800 < e →
      check_token_validity env acc
        = ⟨true, false, some (((e - env.now : ℤ) : ℚ) / 3600)⟩) :=
  check_token_expiry_eval env acc s0 payload rest bs fields e
    hph hdots hsplit hdec hjson hexp hts

/-- C2 witness: the fabricated fresh token (expiry 10 hours past the
clock) is accepted with 10.0 remaining hours logged. -/
theorem claim2_token_expiry_witness :
    check_token_validity envFresh accFresh
      = ⟨true, false, some (((1760263200 - 1760227200 : ℤ) : ℚ) / 3600)⟩ :=
  (claim2_token_expiry envFresh accFresh "h".data (b64EncodeChars jsonBytesFresh)
    [['s']] jsonBytesFresh [("exp", JVal.jnum 1760263200)] 1760263200
    (by decide) (by decide) (by decide) (by decide) rfl rfl rfl).2 (by decide)

/-- C3: a placeholder-shaped token (empty, `your`-prefixed, or containing
`session_token` case-insensitively) is rejected with no validation probe
and no check-in POST attempt. -/
theorem claim3_placeholder_no_network (env : Env) (cfg : Config) (acc : Account)
    (o : Nat → AttemptOutcome)
    (h : acc.session_token.data.isEmpty = true
       ∨ strPrefixOf "your".data acc.session_token.data = true
       ∨ strHasSub (acc.session_token.data.map pyLower) "session_token".data = true) :
    check_token_validity env acc = ⟨false, false, none⟩ ∧
    sign_in env cfg acc o = ⟨false, 0, 0, SignInLog.skippedInvalid⟩ := by
  have hph : isPlaceholderToken acc.session_token = true := by
    unfold isPlaceholderToken
    rcases h with h | h | h <;> simp [h]
  exact ⟨check_token_placeholder env acc hph,
    sign_in_skip_placeholder env cfg acc o hph⟩

/-- C3 witness: the template token is rejected with no network call. -/
theorem claim3_placeholder_no_network_witness :
    check_token_validity envProbeOk accPlaceholder = ⟨false, false, none⟩ ∧
    sign_in envProbeOk cfgDefaults accPlaceholder oStatus500
      = ⟨false, 0, 0, SignInLog.skippedInvalid⟩ :=
  claim3_placeholder_no_network envProbeOk cfgDefaults accPlaceholder oStatus500
    (Or.inr (Or.inl (by decide)))

/-- C4: every HTTP 200 response makes `sign_in` return success after that
attempt: a stringified JSON body containing one of the four
already-checked-in phrase variants is classified `alreadyChecked`, whose
log message differs from the fresh-success message, yet still succeeds;
a 200 body that fails JSON parsing is logged with the raw-text success
message and also succeeds. -/
theorem claim4_success_classification (env : Env) (cfg : Config) (acc : Account)
    (o : Nat → AttemptOutcome)
    (hvalid : (check_token_validity env acc).valid = true)
    (hrt : 1 ≤ cfg.retryTimes) :
    (∀ t, o 0 = AttemptOutcome.httpResponse 200 (RespBody.jsonBody t) →
      containsAnyPhrase t = true →
      sign_in env cfg acc o = ⟨true, 1, 0, SignInLog.alreadyChecked⟩) ∧
    (∀ t, o 0 = AttemptOutcome.httpResponse 200 (RespBody.jsonBody t) →
      containsAnyPhrase t = false →
      sign_in env cfg acc o = ⟨true, 1, 0, SignInLog.checkinSuccess⟩) ∧
    (∀ raw, o 0 = AttemptOutcome.httpResponse 200 (RespBody.rawBody raw) →
      sign_in env cfg acc o = ⟨true, 1, 0, SignInLog.rawSuccess⟩) ∧
    logMessage SignInLog.alreadyChecked ≠ logMessage SignInLog.checkinSuccess ∧
    logMessage SignInLog.rawSuccess = "check-in successful" := by
  obtain ⟨n, hn⟩ : ∃ n, cfg.retryTimes = n + 1 := ⟨cfg.retryTimes - 1, by omega⟩
  have hbase : ∀ b, o 0 = AttemptOutcome.httpResponse 200 b →
      sign_in env cfg acc o = ⟨true, 1, 0, classify200 b⟩ := by
    intro b hb
    unfold sign_in
    rw [hvalid]
    simp only [if_true]
    rw [hn, signInGo_succ_response (n + 1) cfg.retryDelay n 0 0 200 b o hb,
      if_pos rfl]
  refine ⟨?_, ?_, ?_, by decide, rfl⟩
  · intro t ht hphr
    rw [hbase (RespBody.jsonBody t) ht]
    simp [classify200, hphr]
  · intro t ht hphr
    rw [hbase (RespBody.jsonBody t) ht]
    simp [classify200, hphr]
  · intro raw hraw
    rw [hbase (RespBody.rawBody raw) hraw]
    simp [classify200]

/-- C4 witness: a 200 body carrying an already-checked-in phrase still
counts as success with the distinct classification. -/
theorem claim4_success_classification_witness :
    sign_in envProbeOk cfgDefaults accPlain
      (oResp200 (RespBody.jsonBody "msg: Already checked in today"))
      = ⟨true, 1, 0, SignInLog.alreadyChecked⟩ :=
  (claim4_success_classification envProbeOk cfgDefaults accPlain
    (oResp200 (RespBody.jsonBody "msg: Already checked in today"))
    (by decide) (by decide)).1 "msg: Already checked in today" rfl (by decide)

/-- C5: token validation fails open.  For a non-placeholder token without
the three-segment shape, or whose payload fails base64 decoding, or whose
payload fails JSON parsing, `check_token_validity` delegates to
`test_token_with_api`, which returns `true` iff the probe's HTTP status is
200 and returns `true` on any exception during the probe; a non-decode
exception while parsing makes `check_token_validity` itself return `true`
without probing — so validation errors never block a check-in attempt. -/
theorem claim5_fail_open (env : Env) (acc : Account)
    (hph : isPlaceholderToken acc.session_token = false) :
    (¬ 2 ≤ countDots acc.session_token.data →
      check_token_validity env acc = ⟨test_token_with_api env acc, true, none⟩) ∧
    (∀ s0 payload rest,
      splitCharsOnDot acc.session_token.data = s0 :: payload :: rest →
      2 ≤ countDots acc.session_token.data →
      pyB64Decode (padPayloadChars payload) = none →
      check_token_validity env acc = ⟨test_token_with_api env acc, true, none⟩) ∧
    (∀ s0 payload rest bs,
      splitCharsOnDot acc.session_token.data = s0 :: payload :: rest →
      2 ≤ countDots acc.session_token.data →
      pyB64Decode (padPayloadChars payload) = some bs →
      env.jsonParse bs = ParseOutcome.decodeError →
      check_token_validity env acc = ⟨test_token_with_api env acc, true, none⟩) ∧
    (∀ s0 payload rest bs,
      splitCharsOnDot acc.session_token.data = s0 :: payload :: rest →
      2 ≤ countDots acc.session_token.data →
      pyB64Decode (padPayloadChars payload) = some bs →
      env.jsonParse bs = ParseOutcome.otherError →
      check_token_validity env acc = ⟨true, false, none⟩) ∧
    (env.probe = ProbeOutcome.exc → test_token_with_api env acc = true) ∧
    (∀ c, env.probe = ProbeOutcome.status c →
      (test_token_with_api env acc = true ↔ c = 200)) := by
  refine ⟨?_, ?_, ?_, ?_, ?_, ?_⟩
  · intro hnd
    unfold check_token_validity
    simp only [hph, Bool.false_eq_true, if_false, if_neg hnd]
  · intro s0 payload rest hsplit hdots hdec
    unfold check_token_validity
    simp only [hph, Bool.false_eq_true, if_false, if_pos hdots, hsplit, hdec]
  · intro s0 payload rest bs hsplit hdots hdec hjson
    unfold check_token_validity
    simp only [hph, Bool.false_eq_true, if_false, if_pos hdots, hsplit, hdec, hjson]
  · intro s0 payload rest bs hsplit hdots hdec hjson
    unfold check_token_validity
    simp only [hph, Bool.false_eq_true, if_false, if_pos hdots, hsplit, hdec, hjson]
  · intro hprobe
    unfold test_token_with_api
    rw [hprobe]
  · intro c hprobe
    unfold test_token_with_api
    rw [hprobe]
    simp

/-- C5 witness: a dotless token with a 200-status probe is accepted via
the probe. -/
theorem claim5_fail_open_witness :
    check_token_validity envProbeOk accPlain
      = ⟨test_token_with_api envProbeOk accPlain, true, none⟩ :=
  (claim5_fail_open envProbeOk accPlain (by decide)).1 (by decide)

/-- C6: the orchestrator iterates the enabled accounts sequentially in
load order; an account whose token fails validation is counted as a
failure without any POST attempt; with three accounts of which the middle
has a placeholder token and the other two succeed, the aggregate log line
is exactly `Check-in complete, success: 2/3`, which carries the
`success: 2/3` figure. -/
theorem claim6_orchestrator (cfg : Config) (e1 eP e2 : Env) (a1 aP a2 : Account)
    (o1 oP o2 : Nat → AttemptOutcome)
    (hP : isPlaceholderToken aP.session_token = true)
    (h1 : (sign_in e1 cfg a1 o1).success = true)
    (h2 : (sign_in e2 cfg a2 o2).success = true) :
    sign_in eP cfg aP oP = ⟨false, 0, 0, SignInLog.skippedInvalid⟩ ∧
    sign_in_all_accounts cfg [(e1, a1, o1), (eP, aP, oP), (e2, a2, o2)]
      = some ⟨2, 3, "Check-in complete, success: 2/3"⟩ ∧
    strHasSub "Check-in complete, success: 2/3".data "success: 2/3".data = true := by
  have hskip := sign_in_skip_placeholder eP cfg aP oP hP
  refine ⟨hskip, ?_, by decide⟩
  have hcount : countSuccesses cfg [(e1, a1, o1), (eP, aP, oP), (e2, a2, o2)] 0 = 2 := by
    simp only [countSuccesses, h1, h2, hskip, if_true]
    norm_num
  simp only [sign_in_all_accounts, hcount, List.length_cons, List.length_nil]
  decide

/-- C6 witness: the three-account scenario with concrete data. -/
theorem claim6_orchestrator_witness :
    sign_in envProbeOk cfgDefaults accPlaceholder oStatus500
      = ⟨false, 0, 0, SignInLog.skippedInvalid⟩ ∧
    sign_in_all_accounts cfgDefaults
      [(envProbeOk, accPlain, oResp200 (RespBody.jsonBody "done-ok")),
       (envProbeOk, accPlaceholder, oStatus500),
       (envProbeOk, accPlain2, oResp200 (RespBody.jsonBody "done-ok"))]
      = some ⟨2, 3, "Check-in complete, success: 2/3"⟩ ∧
    strHasSub "Check-in complete, success: 2/3".data "success: 2/3".data = true :=
  claim6_orchestrator cfgDefaults envProbeOk envProbeOk envProbeOk
    accPlain accPlaceholder accPlain2
    (oResp200 (RespBody.jsonBody "done-ok")) oStatus500
    (oResp200 (RespBody.jsonBody "done-ok"))
    (by decide) (by decide) (by decide)

/-- C7 (demonstration of the code bug): on a missing or malformed main
config file the process terminates but nothing is logged — the handler's
`self.logger.error` raises `AttributeError` because `setup_logging` has
not run yet, so `sys.exit(1)` is never reached; missing/malformed
accounts and proxy files degrade to empty lists with a warning and
execution continues. -/
theorem claim7_config_error_tiering :
    load_config FileOutcome.missing = ⟨true, false⟩ ∧
    load_config FileOutcome.malformedJson = ⟨true, false⟩ ∧
    load_accounts AccountsFile.missing = ([], true) ∧
    load_accounts AccountsFile.malformedJson = ([], true) ∧
    load_proxies none = ([], true) :=
  ⟨rfl, rfl, rfl, rfl, rfl⟩

/-- C9: no operation mutates the loaded accounts, proxies or base
headers: each state-transforming version of the operations returns the
bot state unchanged (request headers are composed from a copy). -/
theorem claim9_read_only (env : Env) (cfg : Config) (ua : String) (s : BotState)
    (acc : Account) (o : Nat → AttemptOutcome)
    (inputs : List (Env × Account × (Nat → AttemptOutcome))) :
    (check_token_validity_st env s acc).2 = s ∧
    (test_token_with_api_st env s acc).2 = s ∧
    (sign_in_st env cfg ua s acc o).2 = s ∧
    (sign_in_all_accounts_st cfg s inputs).2 = s :=
  ⟨rfl, rfl, rfl, rfl⟩

/-- C10 counterexample: a three-segment token whose middle segment decodes
to JSON with a non-numeric `exp` but whose header segment is
placeholder-shaped is rejected (the claim asserts it returns `true`). -/
theorem claim10_counterexample :
    2 ≤ countDots accNullExpx.session_token.data ∧
    splitCharsOnDot accNullExpx.session_token.data
      = ["your10".data, b64EncodeChars jsonBytesNullExp, "s10".data] ∧
    pyB64Decode (padPayloadChars (b64EncodeChars jsonBytesNullExp))
      = some jsonBytesNullExp ∧
    envNullExpx.jsonParse jsonBytesNullExp
      = ParseOutcome.ok (JVal.jobj [("exp", JVal.jnull)]) ∧
    (check_token_validity envNullExpx accNullExpx).valid = false :=
  ⟨by decide, by decide, by decide, rfl, by decide⟩

/-- C10 (amended: the token must additionally not be placeholder-shaped,
since the placeholder test runs first, and the `exp` value must be
neither numeric nor boolean — Python's `bool` is an `int` subclass, so a
boolean `exp` takes the numeric expiry path instead of raising): a
non-placeholder three-segment token whose payload parses to JSON with an
`exp` that is a string, null, array or object (TypeError in
`fromtimestamp`), or numeric but not representable by
`datetime.fromtimestamp`, makes `check_token_validity` return `true` via
the outer fail-open handler — it neither rejects nor falls back to the
probe. -/
theorem claim10_invalid_exp_fails_open (env : Env) (acc : Account)
    (s0 payload : List Char) (rest : List (List Char)) (bs : List Nat)
    (fields : List (String × JVal)) (v : JVal)
    (hph : isPlaceholderToken acc.session_token = false)
    (hdots : 2 ≤ countDots acc.session_token.data)
    (hsplit : splitCharsOnDot acc.session_token.data = s0 :: payload :: rest)
    (hdec : pyB64Decode (padPayloadChars payload) = some bs)
    (hjson : env.jsonParse bs = ParseOutcome.ok (JVal.jobj fields))
    (hexp : jlookup fields "exp" = some v)
    (hbad : ((∀ i : Int, v ≠ JVal.jnum i) ∧ (∀ b : Bool, v ≠ JVal.jbool b))
      ∨ ∃ i : Int, v = JVal.jnum i ∧ env.tsOk i = false) :
    check_token_validity env acc = ⟨true, false, none⟩ := by
  unfold check_token_validity
  simp only [hph, Bool.false_eq_true, if_false, if_pos hdots, hsplit, hdec, hjson]
  unfold expVerdict
  simp only [hexp]
  rcases hbad with ⟨hbn, hbb⟩ | ⟨i, rfl, hts⟩
  · cases v with
    | jnum i => exact absurd rfl (hbn i)
    | jbool b => exact absurd rfl (hbb b)
    | jnull => rfl
    | jstr s => rfl
    | jarr xs => rfl
    | jobj fs => rfl
  · unfold expNumeric
    simp [hts]

/-- C10 witness: a fabricated token whose `exp` is the JSON string
`"later"` is accepted without probing. -/
theorem claim10_invalid_exp_fails_open_witness :
    check_token_validity envBadExp accBadExp = ⟨true, false, none⟩ :=
  claim10_invalid_exp_fails_open envBadExp accBadExp "hx".data
    (b64EncodeChars jsonBytesBadExp) ["sx".data] jsonBytesBadExp
    [("exp", JVal.jstr "later")] (JVal.jstr "later")
    (by decide) (by decide) (by decide) (by decide) rfl rfl
    (Or.inl ⟨fun i h => JVal.noConfusion h, fun b h => JVal.noConfusion h⟩)

/-- C8 counterexample: a fabricated three-segment token whose middle
segment is the base64 encoding of `JSON {"exp": far-future}` but whose
header segment is placeholder-shaped is rejected (the claim asserts
acceptance for every such fabricated token). -/
theorem claim8_counterexample :
    tokenR8x.data
      = "your8".data ++ '.' :: (b64EncodeChars jsonBytesR8x ++ '.' :: "sx8".data) ∧
    pyB64Decode (padPayloadChars (b64EncodeChars jsonBytesR8x)) = some jsonBytesR8x ∧
    envR8x.jsonParse jsonBytesR8x
      = ParseOutcome.ok (JVal.jobj [("exp", JVal.jnum 1760270400)]) ∧
    envR8x.now + 1800 < 1760270400 ∧
    (check_token_validity envR8x accR8x).valid = false :=
  ⟨by decide, by decide, rfl, by decide, by decide⟩

/-- C8 (amended: the fabricated token must not be placeholder-shaped,
since the placeholder test runs first): for every fabricated three-segment
token `header.middle.signature` with dot-free header, non-placeholder
shape, and middle segment the base64 encoding of JSON `{"exp": e}` with
`e` more than 30 minutes in the future, the source's padding step appends
exactly four `'='` (the encoder output length is already a multiple of 4),
the decode round-trips to the original bytes nonetheless, and
`check_token_validity` accepts, reporting exactly `(e - now) / 3600`
remaining hours (hence within any one-decimal rounding tolerance). -/
theorem claim8_roundtrip (env : Env) (acc : Account) (hd tl : List Char)
    (bs : List Nat) (e : Int)
    (htok : acc.session_token.data = hd ++ '.' :: (b64EncodeChars bs ++ '.' :: tl))
    (hhd : '.' ∉ hd)
    (hph : isPlaceholderToken acc.session_token = false)
    (hbytes : ∀ b ∈ bs, b < 256)
    (hjson : env.jsonParse bs = ParseOutcome.ok (JVal.jobj [("exp", JVal.jnum e)]))
    (hts : env.tsOk e = true)
    (hfut : env.now + 1800 < e) :
    padPayloadChars (b64EncodeChars bs) = b64EncodeChars bs ++ List.replicate 4 '=' ∧
    pyB64Decode (padPayloadChars (b64EncodeChars bs)) = some bs ∧
    check_token_validity env acc
      = ⟨true, false, some (((e - env.now : ℤ) : ℚ) / 3600)⟩ := by
  have hpad := padPayloadChars_encode bs
  have hdecode : pyB64Decode (padPayloadChars (b64EncodeChars bs)) = some bs := by
    rw [hpad]
    exact pyB64Decode_padded_encode bs hbytes
  refine ⟨hpad, hdecode, ?_⟩
  have hsplit : splitCharsOnDot acc.session_token.data
      = hd :: b64EncodeChars bs :: splitCharsOnDot tl := by
    rw [htok, splitCharsOnDot_append hd _ hhd]
    rw [splitCharsOnDot_append _ tl (b64EncodeChars_no_dot bs)]
  have hdots : 2 ≤ countDots acc.session_token.data := by
    rw [htok]
    exact countDots_fabricated hd _ tl
  exact (check_token_expiry_eval env acc hd (b64EncodeChars bs) (splitCharsOnDot tl)
    bs [("exp", JVal.jnum e)] e hph hdots hsplit hdecode hjson rfl hts).2 hfut

/-- C8 witness: the fabricated `hdr8.<encoding>.sg8` token with an expiry
11 hours past the clock round-trips and is accepted with 11.0 remaining
hours. -/
theorem claim8_roundtrip_witness :
    padPayloadChars (b64EncodeChars jsonBytesR8)
      = b64EncodeChars jsonBytesR8 ++ List.replicate 4 '=' ∧
    pyB64Decode (padPayloadChars (b64EncodeChars jsonBytesR8)) = some jsonBytesR8 ∧
    check_token_validity envR8 accR8
      = ⟨true, false, some (((1760266800 - 1760227200 : ℤ) : ℚ) / 3600)⟩ :=
  claim8_roundtrip envR8 accR8 "hdr8".data "sg8".data jsonBytesR8 1760266800
    rfl (by decide) (by decide) (by decide) rfl rfl (by decide)

end Checkin
